import Mathlib

/-!
# Verification of the bounded tool-dispatch agent loops

Shallow embedding of the agent-loop logic of this repository:

* `src/Part2_Examples/01_simple_tool_calling.py` — `run_agent_loop` with a
  three-tool registry (`calculate`, `get_weather`, `search_web`), namespace
  `SimpleToolCalling` below;
* `src/Part2_Examples/05_complete_agent.py` — `run_agent_loop` with the single
  tool `calculate` (and a character filter on expressions), namespace
  `CompleteAgent` below;
* `src/Part1_Examples/langchain_examples/03_agent_with_tools.py` — the keyword
  router `simple_agent`, namespace `AgentWithTools` below.

Modelling conventions:

* A Python exception is an `Except.error`; normal return is `Except.ok`.
  A `try/except` body that may raise is a value of type `Except String α`,
  and the handler is a `match` on it.
* Python `eval(expression, \x7b"__builtins__": \x7b\x7d\x7d, \x7b\x7d)` is opaque third-party
  behaviour; it is passed in as a parameter `pyEval : String → Except String String`
  (it may return a value or raise).  Likewise the model round-trip
  `model_with_tools.invoke(messages)` is a parameter
  `model : List Message → Except String AIReply`, and the float arithmetic
  inside `calculate_discount` is a parameter `cdFn`.
* Each tool of the repository takes a single string argument (`expression`,
  `location`, `query`, `name`); the `args` dict of a tool call is therefore
  collapsed to that one string payload.
* The run is instrumented: besides the returned text it records the final
  transcript, the transcript at the moment of every model call, and the number
  of tool invocations, so that counting claims can be stated.
-/

/-- A model-issued tool call: `tool_call["name"]`, `tool_call["args"]`
(collapsed to the single string payload used by every tool of the repository)
and `tool_call["id"]`. -/
structure ToolCall where
  name : String
  args : String
  id : String
deriving DecidableEq, Repr

/-- One transcript entry: `HumanMessage`, the model reply (an `AIMessage` with
its `tool_calls` list), or a `ToolMessage` with its `tool_call_id`. -/
inductive Message where
  | human (content : String)
  | ai (content : String) (tool_calls : List ToolCall)
  | tool (content : String) (tool_call_id : String)
deriving DecidableEq, Repr

/-- The model reply: `response.content` and `response.tool_calls`. -/
structure AIReply where
  content : String
  tool_calls : List ToolCall
deriving DecidableEq, Repr

deriving instance DecidableEq for Except

/-- Instrumented outcome of `run_agent_loop`: the returned text (or the
propagated exception), the final transcript, the transcript at each model
call in order, and how many tool invocations were made. -/
structure RunTrace where
  result : Except String String
  messages : List Message
  calls : List (List Message)
  toolInvocations : Nat
deriving DecidableEq, Repr

/-- The `for iteration in range(max_iterations)` loop shared by both
`run_agent_loop` variants, parameterised by the model capability, the
tool-dispatch body (what the `for tool_call in response.tool_calls` loop
appends, and how many tool invocations it makes — it may also raise), and the
sentinel text returned when the iteration budget is exhausted. -/
def runAux (model : List Message → Except String AIReply)
    (dispatch : List ToolCall → Except String (List Message × Nat))
    (sentinel : String) : Nat → List Message → RunTrace
  | 0, msgs => ⟨Except.ok sentinel, msgs, [], 0⟩
  | n + 1, msgs =>
    match model msgs with
    | Except.error e => ⟨Except.error e, msgs, [msgs], 0⟩
    | Except.ok resp =>
      let msgs2 := msgs ++ [Message.ai resp.content resp.tool_calls]
      if resp.tool_calls.isEmpty then
        ⟨Except.ok resp.content, msgs2, [msgs], 0⟩
      else
        match dispatch resp.tool_calls with
        | Except.error e => ⟨Except.error e, msgs2, [msgs], 0⟩
        | Except.ok (tms, k) =>
          let r := runAux model dispatch sentinel n (msgs2 ++ tms)
          ⟨r.result, r.messages, msgs :: r.calls, k + r.toolInvocations⟩

theorem runAux_zero (model dispatch sentinel msgs) :
    runAux model dispatch sentinel 0 msgs = ⟨Except.ok sentinel, msgs, [], 0⟩ := rfl

theorem runAux_succ_model_error (model dispatch sentinel n msgs e)
    (h : model msgs = Except.error e) :
    runAux model dispatch sentinel (n + 1) msgs = ⟨Except.error e, msgs, [msgs], 0⟩ := by
  simp [runAux, h]

theorem runAux_succ_final (model dispatch sentinel n msgs resp)
    (h : model msgs = Except.ok resp) (h2 : resp.tool_calls = []) :
    runAux model dispatch sentinel (n + 1) msgs =
      ⟨Except.ok resp.content, msgs ++ [Message.ai resp.content resp.tool_calls],
        [msgs], 0⟩ := by
  simp [runAux, h, h2]

theorem runAux_succ_step (model dispatch sentinel n msgs resp tms k)
    (h : model msgs = Except.ok resp) (h2 : resp.tool_calls ≠ [])
    (h3 : dispatch resp.tool_calls = Except.ok (tms, k)) :
    runAux model dispatch sentinel (n + 1) msgs =
      (let r := runAux model dispatch sentinel n
          ((msgs ++ [Message.ai resp.content resp.tool_calls]) ++ tms)
       ⟨r.result, r.messages, msgs :: r.calls, k + r.toolInvocations⟩) := by
  simp [runAux, h, h2, h3]

theorem runAux_succ_dispatch_error (model dispatch sentinel n msgs resp e)
    (h : model msgs = Except.ok resp) (h2 : resp.tool_calls ≠ [])
    (h3 : dispatch resp.tool_calls = Except.error e) :
    runAux model dispatch sentinel (n + 1) msgs =
      ⟨Except.error e, msgs ++ [Message.ai resp.content resp.tool_calls], [msgs], 0⟩ := by
  simp [runAux, h, h2, h3]

namespace SimpleToolCalling

/-! ## `src/Part2_Examples/01_simple_tool_calling.py` -/

/-- The `calculate` tool.  The `try` body evaluates `pyEval expression` (the
embedded `eval(expression, \x7b"__builtins__": \x7b\x7d\x7d, \x7b\x7d)`, which may raise); the
`except` branch returns `f"Error calculating: \x7bstr(e)\x7d"`.  The `Except` result
type records whether `calculate` itself raises. -/
def calculate (pyEval : String → Except String String) (expression : String) :
    Except String String :=
  match pyEval expression with
  | Except.ok result => Except.ok result
  | Except.error e => Except.ok ("Error calculating: " ++ e)

/-- The simulated weather table of `get_weather`. -/
def weather_data : List (String × String) :=
  [("new york", "Sunny, 72°F"), ("london", "Cloudy, 15°C"),
   ("tokyo", "Rainy, 20°C"), ("paris", "Partly cloudy, 18°C")]

/-- The `get_weather` tool: dictionary lookup on the lower-cased location with
a fallback text, wrapped in the reply sentence. -/
def get_weather (location : String) : String :=
  let location_lower := location.toLower
  let weather :=
    match weather_data.lookup location_lower with
    | some w => w
    | none => "Weather data not available for " ++ location
  "The weather in " ++ location ++ " is " ++ weather

/-- The `search_web` tool: a fixed simulated result string. -/
def search_web (query : String) : String :=
  let results := "Found 3 relevant articles about " ++ query ++ "."
  "Search results for \x27" ++ query ++ "\x27: " ++ results

/-- Names the `if/elif` dispatch of `run_agent_loop` recognises. -/
def registryNames : List String := ["calculate", "get_weather", "search_web"]

/-- One arm of the `for tool_call in response.tool_calls` body: the `if/elif`
chain on `tool_call["name"]`, with the `f"Unknown tool: ..."` fallback.  Only
`calculate` can involve a raising sub-computation, and it catches it. -/
def execToolCall (pyEval : String → Except String String) (tc : ToolCall) :
    Except String String :=
  if tc.name = "calculate" then calculate pyEval tc.args
  else if tc.name = "get_weather" then Except.ok (get_weather tc.args)
  else if tc.name = "search_web" then Except.ok (search_web tc.args)
  else Except.ok ("Unknown tool: " ++ tc.name)

/-- The whole `for tool_call in response.tool_calls` loop: for each call, run
the dispatch and append `ToolMessage(content=result, tool_call_id=tool_call["id"])`;
also counts how many registered tools were invoked.  An uncaught exception
would abort the loop and propagate (`Except.error`). -/
def execToolCalls (pyEval : String → Except String String) :
    List ToolCall → Except String (List Message × Nat)
  | [] => Except.ok ([], 0)
  | tc :: rest =>
    match execToolCall pyEval tc with
    | Except.error e => Except.error e
    | Except.ok result =>
      match execToolCalls pyEval rest with
      | Except.error e => Except.error e
      | Except.ok (ms, k) =>
        Except.ok (Message.tool result tc.id :: ms,
          (if tc.name ∈ registryNames then 1 else 0) + k)

/-- `run_agent_loop(model_with_tools, user_query, max_iterations=5)`. -/
def run_agent_loop (model : List Message → Except String AIReply)
    (pyEval : String → Except String String)
    (user_query : String) (max_iterations : Nat := 5) : RunTrace :=
  runAux model (execToolCalls pyEval)
    "Max iterations reached without final answer"
    max_iterations [Message.human user_query]

/-- The text each tool call produces (no tool of this file can raise, so the
dispatch always returns normally with this content). -/
def toolResultText (pyEval : String → Except String String) (tc : ToolCall) : String :=
  if tc.name = "calculate" then
    match pyEval tc.args with
    | Except.ok result => result
    | Except.error e => "Error calculating: " ++ e
  else if tc.name = "get_weather" then get_weather tc.args
  else if tc.name = "search_web" then search_web tc.args
  else "Unknown tool: " ++ tc.name

theorem execToolCall_eq_ok (pyEval tc) :
    execToolCall pyEval tc = Except.ok (toolResultText pyEval tc) := by
  unfold execToolCall toolResultText calculate
  split
  · cases pyEval tc.args <;> rfl
  · split <;> [rfl; skip]
    split <;> rfl

/-- Number of registered-tool invocations a list of tool calls causes. -/
def invCount (tcs : List ToolCall) : Nat :=
  (tcs.filter (fun tc => tc.name ∈ registryNames)).length

theorem execToolCallsSimple_eq_ok (pyEval) : ∀ tcs : List ToolCall,
    execToolCalls pyEval tcs =
      Except.ok (tcs.map (fun tc => Message.tool (toolResultText pyEval tc) tc.id),
        invCount tcs)
  | [] => rfl
  | tc :: rest => by
    rw [execToolCalls, execToolCall_eq_ok, execToolCallsSimple_eq_ok pyEval rest]
    simp only [List.map_cons, invCount, List.filter_cons]
    split
    · split <;> simp_all [Nat.add_comm]
    · split <;> simp_all

end SimpleToolCalling

namespace CompleteAgent

/-! ## `src/Part2_Examples/05_complete_agent.py` -/

/-- A character accepted by the filter `re.match(r"^[0-9+\-*/\s().**]+$", ...)`:
a digit, one of `+ - * / ( ) .`, or whitespace (`\s`; the ASCII whitespace
characters). -/
def allowedChar (c : Char) : Bool :=
  c.isDigit || c = '+' || c = '-' || c = '*' || c = '/' || c = '(' || c = ')' ||
    c = '.' || c = ' ' || c = '\t' || c = '\n' || c = '\r' || c = '\x0b' || c = '\x0c'

/-- Whether `re.match(r"^[0-9+\-*/\s().**]+$", expression)` succeeds: at least
one character, and every character allowed. -/
def validChars (expression : String) : Bool :=
  !expression.toList.isEmpty && expression.toList.all allowedChar

/-- This file's `calculate` tool: reject invalid characters with a fixed error
text, otherwise evaluate (`pyEval` may raise) and catch any exception into
`f"Error: \x7bstr(e)\x7d"`. -/
def calculate (pyEval : String → Except String String) (expression : String) :
    Except String String :=
  if !validChars expression then
    Except.ok "Error: Invalid characters in expression"
  else
    match pyEval expression with
    | Except.ok result => Except.ok result
    | Except.error e => Except.ok ("Error: " ++ e)

/-- The `for tool_call in response.tool_calls` loop of this file: ONLY a call
named `calculate` is executed and answered with a `ToolMessage`; any other
name falls through the `if` and appends nothing. -/
def execToolCalls (pyEval : String → Except String String) :
    List ToolCall → Except String (List Message × Nat)
  | [] => Except.ok ([], 0)
  | tc :: rest =>
    if tc.name = "calculate" then
      match calculate pyEval tc.args with
      | Except.error e => Except.error e
      | Except.ok result =>
        match execToolCalls pyEval rest with
        | Except.error e => Except.error e
        | Except.ok (ms, k) => Except.ok (Message.tool result tc.id :: ms, 1 + k)
    else execToolCalls pyEval rest

/-- `run_agent_loop(model_with_tools, user_query, max_iterations=5)` of
`05_complete_agent.py`. -/
def run_agent_loop (model : List Message → Except String AIReply)
    (pyEval : String → Except String String)
    (user_query : String) (max_iterations : Nat := 5) : RunTrace :=
  runAux model (execToolCalls pyEval) "Max iterations reached"
    max_iterations [Message.human user_query]

/-- The text `calculate` returns (it never raises). -/
def calcText (pyEval : String → Except String String) (expression : String) : String :=
  if !validChars expression then "Error: Invalid characters in expression"
  else
    match pyEval expression with
    | Except.ok result => result
    | Except.error e => "Error: " ++ e

theorem calculate_eq_ok (pyEval expression) :
    calculate pyEval expression = Except.ok (calcText pyEval expression) := by
  unfold calculate calcText
  split
  · rfl
  · cases pyEval expression <;> rfl

theorem execToolCallsComplete_eq_ok (pyEval) : ∀ tcs : List ToolCall,
    execToolCalls pyEval tcs =
      Except.ok (tcs.filterMap (fun tc =>
          if tc.name = "calculate" then
            some (Message.tool (calcText pyEval tc.args) tc.id)
          else none),
        (tcs.filter (fun tc => tc.name = "calculate")).length)
  | [] => rfl
  | tc :: rest => by
    rw [execToolCalls]
    by_cases h : tc.name = "calculate" <;>
      simp only [h, if_pos, if_neg, calculate_eq_ok, execToolCallsComplete_eq_ok pyEval rest,
        List.filterMap_cons, List.filter_cons] <;>
      simp [h, Nat.add_comm]

end CompleteAgent

/-! ## Generic facts about the bounded loop -/

theorem runAux_calls_length_le (model dispatch sentinel) :
    ∀ (n : Nat) (msgs : List Message),
      (runAux model dispatch sentinel n msgs).calls.length ≤ n
  | 0, _ => Nat.le_refl 0
  | n + 1, msgs => by
    rw [runAux]
    cases h : model msgs with
    | error e => simp
    | ok resp =>
      by_cases h2 : resp.tool_calls.isEmpty
      · simp [h2]
      · cases h3 : dispatch resp.tool_calls with
        | error e => simp [h2, h3]
        | ok p =>
          simpa [h2, h3] using
            Nat.succ_le_succ (runAux_calls_length_le model dispatch sentinel n _)

theorem runAux_all_tools (model dispatch sentinel)
    (hm : ∀ msgs, ∃ resp, model msgs = Except.ok resp ∧ resp.tool_calls ≠ [])
    (hd : ∀ tcs, ∃ p, dispatch tcs = Except.ok p) :
    ∀ (n : Nat) (msgs : List Message),
      (runAux model dispatch sentinel n msgs).result = Except.ok sentinel ∧
        (runAux model dispatch sentinel n msgs).calls.length = n
  | 0, _ => ⟨rfl, rfl⟩
  | n + 1, msgs => by
    obtain ⟨resp, hresp, hne⟩ := hm msgs
    obtain ⟨⟨tms, k⟩, hp⟩ := hd resp.tool_calls
    rw [runAux_succ_step model dispatch sentinel n msgs resp tms k hresp hne hp]
    simpa using runAux_all_tools model dispatch sentinel hm hd n _

theorem runAux_ok_source (model dispatch sentinel) :
    ∀ (n : Nat) (msgs : List Message) (out : String),
      (runAux model dispatch sentinel n msgs).result = Except.ok out →
      out = sentinel ∨
        ∃ t resp, model t = Except.ok resp ∧ resp.tool_calls = [] ∧ out = resp.content
  | 0, msgs, out, h => by
    left
    simp only [runAux_zero, Except.ok.injEq] at h
    exact h.symm
  | n + 1, msgs, out, h => by
    rw [runAux] at h
    cases hm : model msgs with
    | error e => rw [hm] at h; exact absurd h (by simp)
    | ok resp =>
      rw [hm] at h
      by_cases h2 : resp.tool_calls.isEmpty
      · right
        refine ⟨msgs, resp, hm, List.isEmpty_iff.mp h2, ?_⟩
        simp only [h2, if_pos] at h
        exact (Except.ok.injEq _ _ ▸ h).symm
      · simp only [h2, if_neg, Bool.not_eq_true] at h
        cases hd : dispatch resp.tool_calls with
        | error e => rw [hd] at h; exact absurd h (by simp)
        | ok p =>
          rw [hd] at h
          exact runAux_ok_source model dispatch sentinel n _ out h

theorem runAux_error_source (model dispatch sentinel)
    (hd : ∀ tcs, ∃ p, dispatch tcs = Except.ok p) :
    ∀ (n : Nat) (msgs : List Message) (e : String),
      (runAux model dispatch sentinel n msgs).result = Except.error e →
      ∃ t ∈ (runAux model dispatch sentinel n msgs).calls, model t = Except.error e
  | 0, msgs, e, h => by simp [runAux_zero] at h
  | n + 1, msgs, e, h => by
    cases hm : model msgs with
    | error e2 =>
      rw [runAux_succ_model_error model dispatch sentinel n msgs e2 hm] at h ⊢
      simp only at h
      obtain rfl : e2 = e := by simpa using h
      exact ⟨msgs, by simp, hm⟩
    | ok resp =>
      by_cases h2 : resp.tool_calls = []
      · rw [runAux_succ_final model dispatch sentinel n msgs resp hm h2] at h
        simp at h
      · obtain ⟨⟨tms, k⟩, hp⟩ := hd resp.tool_calls
        rw [runAux_succ_step model dispatch sentinel n msgs resp tms k hm h2 hp] at h ⊢
        simp only at h ⊢
        obtain ⟨t, ht, htm⟩ := runAux_error_source model dispatch sentinel hd n _ e h
        exact ⟨t, List.mem_cons_of_mem _ ht, htm⟩

theorem runAux_congr (model₁ model₂ dispatch₁ dispatch₂ sentinel)
    (hm : ∀ msgs, model₁ msgs = model₂ msgs)
    (hd : ∀ tcs, dispatch₁ tcs = dispatch₂ tcs) :
    ∀ (n : Nat) (msgs : List Message),
      runAux model₁ dispatch₁ sentinel n msgs = runAux model₂ dispatch₂ sentinel n msgs
  | 0, _ => rfl
  | n + 1, msgs => by
    cases hm2 : model₂ msgs with
    | error e =>
      rw [runAux_succ_model_error model₁ dispatch₁ sentinel n msgs e ((hm msgs).trans hm2),
        runAux_succ_model_error model₂ dispatch₂ sentinel n msgs e hm2]
    | ok resp =>
      by_cases h2 : resp.tool_calls = []
      · rw [runAux_succ_final model₁ dispatch₁ sentinel n msgs resp ((hm msgs).trans hm2) h2,
          runAux_succ_final model₂ dispatch₂ sentinel n msgs resp hm2 h2]
      · cases hd2 : dispatch₂ resp.tool_calls with
        | error e =>
          rw [runAux_succ_dispatch_error model₁ dispatch₁ sentinel n msgs resp e
              ((hm msgs).trans hm2) h2 ((hd _).trans hd2),
            runAux_succ_dispatch_error model₂ dispatch₂ sentinel n msgs resp e hm2 h2 hd2]
        | ok p =>
          obtain ⟨tms, k⟩ := p
          rw [runAux_succ_step model₁ dispatch₁ sentinel n msgs resp tms k
              ((hm msgs).trans hm2) h2 ((hd _).trans hd2),
            runAux_succ_step model₂ dispatch₂ sentinel n msgs resp tms k hm2 h2 hd2,
            runAux_congr model₁ model₂ dispatch₁ dispatch₂ sentinel hm hd n _]

/-! ## Correlation-identifier accounting on a transcript -/

/-- The correlation identifiers of every ToolRequest carried by an assistant
message of the transcript, in order. -/
def reqIds : List Message → List String
  | [] => []
  | Message.ai _ tcs :: rest => tcs.map (fun tc => tc.id) ++ reqIds rest
  | Message.human _ :: rest => reqIds rest
  | Message.tool _ _ :: rest => reqIds rest

/-- The `tool_call_id`s of the tool-result messages of the transcript. -/
def resIds : List Message → List String
  | [] => []
  | Message.tool _ cid :: rest => cid :: resIds rest
  | Message.human _ :: rest => resIds rest
  | Message.ai _ _ :: rest => resIds rest

/-- Occurrence count of a string in a list. -/
def countStr (s : String) : List String → Nat
  | [] => 0
  | x :: rest => (if x = s then 1 else 0) + countStr s rest

theorem countStr_append (s : String) : ∀ xs ys : List String,
    countStr s (xs ++ ys) = countStr s xs + countStr s ys
  | [], _ => (Nat.zero_add _).symm
  | x :: xs, ys => by
    rw [List.cons_append, countStr, countStr, countStr_append s xs ys, Nat.add_assoc]

theorem reqIds_append : ∀ xs ys : List Message,
    reqIds (xs ++ ys) = reqIds xs ++ reqIds ys
  | [], _ => rfl
  | m :: xs, ys => by
    cases m <;> simp [reqIds, reqIds_append xs ys]

theorem resIds_append : ∀ xs ys : List Message,
    resIds (xs ++ ys) = resIds xs ++ resIds ys
  | [], _ => rfl
  | m :: xs, ys => by
    cases m <;> simp [resIds, resIds_append xs ys]

theorem reqIds_toolMsgs (f : ToolCall → String) : ∀ tcs : List ToolCall,
    reqIds (tcs.map (fun tc => Message.tool (f tc) tc.id)) = []
  | [] => rfl
  | _ :: rest => reqIds_toolMsgs f rest

theorem resIds_toolMsgs (f : ToolCall → String) : ∀ tcs : List ToolCall,
    resIds (tcs.map (fun tc => Message.tool (f tc) tc.id)) =
      tcs.map (fun tc => tc.id)
  | [] => rfl
  | _ :: rest => by
    simp [resIds, resIds_toolMsgs f rest]

/-- A transcript whose ToolRequest identifiers and tool-result identifiers
match one-to-one, counted with multiplicity. -/
def idBalanced (msgs : List Message) : Prop :=
  ∀ s, countStr s (reqIds msgs) = countStr s (resIds msgs)

/-- If the dispatch answers every ToolRequest with tool-result messages whose
identifiers are exactly the requested ones, then every transcript the model is
called on is identifier-balanced. -/
theorem runAux_idBalanced (model dispatch sentinel)
    (hd : ∀ tcs : List ToolCall, ∃ tms k, dispatch tcs = Except.ok (tms, k) ∧
      reqIds tms = [] ∧
      ∀ s, countStr s (resIds tms) = countStr s (tcs.map (fun tc => tc.id))) :
    ∀ (n : Nat) (msgs : List Message), idBalanced msgs →
      ∀ t ∈ (runAux model dispatch sentinel n msgs).calls, idBalanced t
  | 0, msgs, _, t, ht => by simp [runAux_zero] at ht
  | n + 1, msgs, hbal, t, ht => by
    cases hm : model msgs with
    | error e =>
      rw [runAux_succ_model_error model dispatch sentinel n msgs e hm] at ht
      obtain rfl : t = msgs := by simpa using ht
      exact hbal
    | ok resp =>
      by_cases h2 : resp.tool_calls = []
      · rw [runAux_succ_final model dispatch sentinel n msgs resp hm h2] at ht
        obtain rfl : t = msgs := by simpa using ht
        exact hbal
      · obtain ⟨tms, k, hp, hreq, hres⟩ := hd resp.tool_calls
        rw [runAux_succ_step model dispatch sentinel n msgs resp tms k hm h2 hp] at ht
        simp only [List.mem_cons] at ht
        rcases ht with rfl | ht
        · exact hbal
        · refine runAux_idBalanced model dispatch sentinel hd n _ ?_ t ht
          intro s
          rw [reqIds_append, reqIds_append, resIds_append, resIds_append,
            countStr_append, countStr_append, countStr_append, countStr_append,
            hbal s, hreq, hres s]
          simp [reqIds, resIds, countStr]

/-! ## Scripted capabilities used to exercise the theorems -/

namespace Scripted

/-- A scripted model: first reply requests `tcs`, any later reply is the final
text with no tool calls. -/
def twoStep (tcs : List ToolCall) (finalText : String) :
    List Message → Except String AIReply :=
  fun msgs => if msgs.length ≤ 1 then Except.ok ⟨"", tcs⟩ else Except.ok ⟨finalText, []⟩

/-- A scripted model that always requests the same tool calls. -/
def alwaysTool (tcs : List ToolCall) : List Message → Except String AIReply :=
  fun _ => Except.ok ⟨"", tcs⟩

/-- A scripted model that immediately answers with text and no tool calls. -/
def immediate (txt : String) : List Message → Except String AIReply :=
  fun _ => Except.ok ⟨txt, []⟩

/-- A scripted evaluator that always succeeds with the same text. -/
def okEval (txt : String) : String → Except String String := fun _ => Except.ok txt

/-- A scripted evaluator that always raises. -/
def failEval (e : String) : String → Except String String := fun _ => Except.error e

end Scripted

/-! ## The claims -/

/-- C1: for every user query, tool registry, bound `maxIterations = N` and
model capability, `run_agent_loop` (in both `01_simple_tool_calling.py` and
`05_complete_agent.py`) invokes the model capability at most `N` times before
returning. -/
theorem C1_model_calls_bounded (model : List Message → Except String AIReply)
    (pyEval : String → Except String String) (q : String) (N : Nat) :
    (SimpleToolCalling.run_agent_loop model pyEval q N).calls.length ≤ N ∧
    (CompleteAgent.run_agent_loop model pyEval q N).calls.length ≤ N :=
  ⟨runAux_calls_length_le model _ _ N _, runAux_calls_length_le model _ _ N _⟩

/-- C2: if the first model reply carries no ToolRequest, both `run_agent_loop`
variants make exactly one model call (on the initial transcript) and return
exactly that reply's text content. -/
theorem C2_first_reply_no_tools (model : List Message → Except String AIReply)
    (pyEval : String → Except String String) (q : String) (N : Nat) (resp : AIReply)
    (h1 : model [Message.human q] = Except.ok resp)
    (h2 : resp.tool_calls = [])
    (h3 : 0 < N) :
    ((SimpleToolCalling.run_agent_loop model pyEval q N).result = Except.ok resp.content ∧
      (SimpleToolCalling.run_agent_loop model pyEval q N).calls = [[Message.human q]]) ∧
    ((CompleteAgent.run_agent_loop model pyEval q N).result = Except.ok resp.content ∧
      (CompleteAgent.run_agent_loop model pyEval q N).calls = [[Message.human q]]) := by
  obtain ⟨n, rfl⟩ : ∃ k, N = k + 1 := ⟨N - 1, by omega⟩
  simp only [SimpleToolCalling.run_agent_loop, CompleteAgent.run_agent_loop]
  rw [runAux_succ_final model (SimpleToolCalling.execToolCalls pyEval) _ n _ resp h1 h2,
    runAux_succ_final model (CompleteAgent.execToolCalls pyEval) _ n _ resp h1 h2]
  exact ⟨⟨rfl, rfl⟩, ⟨rfl, rfl⟩⟩

/-- Witness for C2 at a concrete scripted model. -/
theorem C2_first_reply_no_tools_witness :
    (Scripted.immediate "hi" [Message.human "q"] = Except.ok (⟨"hi", []⟩ : AIReply)) ∧
    (AIReply.tool_calls ⟨"hi", []⟩ = ([] : List ToolCall)) ∧ (0 < 1) ∧
    (((SimpleToolCalling.run_agent_loop (Scripted.immediate "hi") (Scripted.okEval "2") "q" 1).result =
        Except.ok "hi" ∧
      (SimpleToolCalling.run_agent_loop (Scripted.immediate "hi") (Scripted.okEval "2") "q" 1).calls =
        [[Message.human "q"]]) ∧
     ((CompleteAgent.run_agent_loop (Scripted.immediate "hi") (Scripted.okEval "2") "q" 1).result =
        Except.ok "hi" ∧
      (CompleteAgent.run_agent_loop (Scripted.immediate "hi") (Scripted.okEval "2") "q" 1).calls =
        [[Message.human "q"]])) :=
  ⟨rfl, rfl, by decide,
    C2_first_reply_no_tools (Scripted.immediate "hi") (Scripted.okEval "2") "q" 1
      ⟨"hi", []⟩ rfl rfl (by decide)⟩

/-- C7: a model whose replies always carry ToolRequests drives both loops to
exhaust `maxIterations` model calls and return each file's fixed limit-reached
sentinel rather than raising; moreover any run whose result is a normal return
yields either a tool-request-free model reply's text or that sentinel. -/
theorem C7_iteration_limit (model : List Message → Except String AIReply)
    (pyEval : String → Except String String) (q : String) (N : Nat)
    (h : ∀ msgs, ∃ resp, model msgs = Except.ok resp ∧ resp.tool_calls ≠ []) :
    ((SimpleToolCalling.run_agent_loop model pyEval q N).result =
        Except.ok "Max iterations reached without final answer" ∧
      (SimpleToolCalling.run_agent_loop model pyEval q N).calls.length = N) ∧
    ((CompleteAgent.run_agent_loop model pyEval q N).result =
        Except.ok "Max iterations reached" ∧
      (CompleteAgent.run_agent_loop model pyEval q N).calls.length = N) ∧
    (∀ (model₂ : List Message → Except String AIReply) (out : String),
      (SimpleToolCalling.run_agent_loop model₂ pyEval q N).result = Except.ok out →
        out = "Max iterations reached without final answer" ∨
        ∃ t resp, model₂ t = Except.ok resp ∧ resp.tool_calls = [] ∧ out = resp.content) ∧
    (∀ (model₂ : List Message → Except String AIReply) (out : String),
      (CompleteAgent.run_agent_loop model₂ pyEval q N).result = Except.ok out →
        out = "Max iterations reached" ∨
        ∃ t resp, model₂ t = Except.ok resp ∧ resp.tool_calls = [] ∧ out = resp.content) := by
  refine ⟨?_, ?_, ?_, ?_⟩
  · exact runAux_all_tools model _ _ h
      (fun tcs => ⟨_, SimpleToolCalling.execToolCallsSimple_eq_ok pyEval tcs⟩) N _
  · exact runAux_all_tools model _ _ h
      (fun tcs => ⟨_, CompleteAgent.execToolCallsComplete_eq_ok pyEval tcs⟩) N _
  · exact fun model₂ out hout => runAux_ok_source model₂ _ _ N _ out hout
  · exact fun model₂ out hout => runAux_ok_source model₂ _ _ N _ out hout

/-- Witness for C7: a model that always requests `calculate` exhausts the
budget of 2 iterations in both loops. -/
theorem C7_iteration_limit_witness :
    (∀ msgs, ∃ resp,
      Scripted.alwaysTool [⟨"calculate", "1+1", "a"⟩] msgs = Except.ok resp ∧
        resp.tool_calls ≠ []) ∧
    (((SimpleToolCalling.run_agent_loop (Scripted.alwaysTool [⟨"calculate", "1+1", "a"⟩])
          (Scripted.okEval "2") "q" 2).result =
        Except.ok "Max iterations reached without final answer" ∧
      (SimpleToolCalling.run_agent_loop (Scripted.alwaysTool [⟨"calculate", "1+1", "a"⟩])
          (Scripted.okEval "2") "q" 2).calls.length = 2) ∧
     ((CompleteAgent.run_agent_loop (Scripted.alwaysTool [⟨"calculate", "1+1", "a"⟩])
          (Scripted.okEval "2") "q" 2).result = Except.ok "Max iterations reached" ∧
      (CompleteAgent.run_agent_loop (Scripted.alwaysTool [⟨"calculate", "1+1", "a"⟩])
          (Scripted.okEval "2") "q" 2).calls.length = 2) ∧
     (∀ (model₂ : List Message → Except String AIReply) (out : String),
      (SimpleToolCalling.run_agent_loop model₂ (Scripted.okEval "2") "q" 2).result =
          Except.ok out →
        out = "Max iterations reached without final answer" ∨
        ∃ t resp, model₂ t = Except.ok resp ∧ resp.tool_calls = [] ∧ out = resp.content) ∧
     (∀ (model₂ : List Message → Except String AIReply) (out : String),
      (CompleteAgent.run_agent_loop model₂ (Scripted.okEval "2") "q" 2).result =
          Except.ok out →
        out = "Max iterations reached" ∨
        ∃ t resp, model₂ t = Except.ok resp ∧ resp.tool_calls = [] ∧ out = resp.content)) :=
  ⟨fun _ => ⟨⟨"", [⟨"calculate", "1+1", "a"⟩]⟩, rfl, by decide⟩,
    C7_iteration_limit (Scripted.alwaysTool [⟨"calculate", "1+1", "a"⟩])
      (Scripted.okEval "2") "q" 2
      (fun _ => ⟨⟨"", [⟨"calculate", "1+1", "a"⟩]⟩, rfl, by decide⟩)⟩

theorem SimpleToolCalling.toolResultText_congr (pyEval₁ pyEval₂ : String → Except String String)
    (hp : ∀ s, pyEval₁ s = pyEval₂ s) (tc : ToolCall) :
    SimpleToolCalling.toolResultText pyEval₁ tc = SimpleToolCalling.toolResultText pyEval₂ tc := by
  unfold SimpleToolCalling.toolResultText
  rw [hp tc.args]

theorem SimpleToolCalling.execToolCallsSimple_congr (pyEval₁ pyEval₂ : String → Except String String)
    (hp : ∀ s, pyEval₁ s = pyEval₂ s) (tcs : List ToolCall) :
    SimpleToolCalling.execToolCalls pyEval₁ tcs = SimpleToolCalling.execToolCalls pyEval₂ tcs := by
  rw [SimpleToolCalling.execToolCallsSimple_eq_ok, SimpleToolCalling.execToolCallsSimple_eq_ok]
  have h : (fun tc => Message.tool (SimpleToolCalling.toolResultText pyEval₁ tc) tc.id) =
      (fun tc => Message.tool (SimpleToolCalling.toolResultText pyEval₂ tc) tc.id) :=
    funext fun tc => by rw [SimpleToolCalling.toolResultText_congr pyEval₁ pyEval₂ hp tc]
  rw [h]

theorem CompleteAgent.calcText_congr (pyEval₁ pyEval₂ : String → Except String String)
    (hp : ∀ s, pyEval₁ s = pyEval₂ s) (expression : String) :
    CompleteAgent.calcText pyEval₁ expression = CompleteAgent.calcText pyEval₂ expression := by
  unfold CompleteAgent.calcText
  rw [hp expression]

theorem CompleteAgent.execToolCallsComplete_congr (pyEval₁ pyEval₂ : String → Except String String)
    (hp : ∀ s, pyEval₁ s = pyEval₂ s) (tcs : List ToolCall) :
    CompleteAgent.execToolCalls pyEval₁ tcs = CompleteAgent.execToolCalls pyEval₂ tcs := by
  rw [CompleteAgent.execToolCallsComplete_eq_ok, CompleteAgent.execToolCallsComplete_eq_ok]
  have h : (fun tc : ToolCall =>
      if tc.name = "calculate" then
        some (Message.tool (CompleteAgent.calcText pyEval₁ tc.args) tc.id)
      else none) =
      (fun tc : ToolCall =>
      if tc.name = "calculate" then
        some (Message.tool (CompleteAgent.calcText pyEval₂ tc.args) tc.id)
      else none) :=
    funext fun tc => by rw [CompleteAgent.calcText_congr pyEval₁ pyEval₂ hp tc.args]
  rw [h]

/-- C8: both `run_agent_loop` variants are deterministic — two runs with the
same user query, the same bound, and pointwise-identical scripted model and
evaluator capabilities produce identical traces (result text, final
transcript, model-call transcripts, tool-invocation count). -/
theorem C8_deterministic_replay (model₁ model₂ : List Message → Except String AIReply)
    (pyEval₁ pyEval₂ : String → Except String String) (q : String) (N : Nat)
    (hm : ∀ msgs, model₁ msgs = model₂ msgs)
    (hp : ∀ s, pyEval₁ s = pyEval₂ s) :
    SimpleToolCalling.run_agent_loop model₁ pyEval₁ q N =
      SimpleToolCalling.run_agent_loop model₂ pyEval₂ q N ∧
    CompleteAgent.run_agent_loop model₁ pyEval₁ q N =
      CompleteAgent.run_agent_loop model₂ pyEval₂ q N :=
  ⟨runAux_congr model₁ model₂ _ _ _ hm
      (fun tcs => SimpleToolCalling.execToolCallsSimple_congr pyEval₁ pyEval₂ hp tcs) N _,
    runAux_congr model₁ model₂ _ _ _ hm
      (fun tcs => CompleteAgent.execToolCallsComplete_congr pyEval₁ pyEval₂ hp tcs) N _⟩

/-- Witness for C8 at a concrete scripted model and evaluator. -/
theorem C8_deterministic_replay_witness :
    (∀ msgs, Scripted.twoStep [⟨"calculate", "1+1", "a"⟩] "done" msgs =
      Scripted.twoStep [⟨"calculate", "1+1", "a"⟩] "done" msgs) ∧
    (SimpleToolCalling.run_agent_loop (Scripted.twoStep [⟨"calculate", "1+1", "a"⟩] "done")
        (Scripted.okEval "2") "q" 5 =
      SimpleToolCalling.run_agent_loop (Scripted.twoStep [⟨"calculate", "1+1", "a"⟩] "done")
        (Scripted.okEval "2") "q" 5 ∧
    CompleteAgent.run_agent_loop (Scripted.twoStep [⟨"calculate", "1+1", "a"⟩] "done")
        (Scripted.okEval "2") "q" 5 =
      CompleteAgent.run_agent_loop (Scripted.twoStep [⟨"calculate", "1+1", "a"⟩] "done")
        (Scripted.okEval "2") "q" 5) :=
  ⟨fun _ => rfl,
    C8_deterministic_replay _ _ _ _ "q" 5 (fun _ => rfl) (fun _ => rfl)⟩

/-- C9: both `calculate` tools are total — whatever the evaluator does, they
return normally (never raise), and an evaluator exception is converted into
the file's returned error text. -/
theorem C9_calculate_total (pyEval : String → Except String String) (expression e : String) :
    (∃ s, SimpleToolCalling.calculate pyEval expression = Except.ok s) ∧
    (∃ s, CompleteAgent.calculate pyEval expression = Except.ok s) ∧
    (pyEval expression = Except.error e →
      SimpleToolCalling.calculate pyEval expression =
        Except.ok ("Error calculating: " ++ e)) ∧
    (pyEval expression = Except.error e → CompleteAgent.validChars expression = true →
      CompleteAgent.calculate pyEval expression = Except.ok ("Error: " ++ e)) := by
  refine ⟨?_, ?_, ?_, ?_⟩
  · unfold SimpleToolCalling.calculate
    cases pyEval expression <;> exact ⟨_, rfl⟩
  · rw [CompleteAgent.calculate_eq_ok]
    exact ⟨_, rfl⟩
  · intro h
    unfold SimpleToolCalling.calculate
    rw [h]
  · intro h hv
    simp [CompleteAgent.calculate, hv, h]

/-- Witness for C9 at a concrete always-raising evaluator. -/
theorem C9_calculate_total_witness :
    (Scripted.failEval "boom" "1+1" = Except.error "boom") ∧
    (CompleteAgent.validChars "1+1" = true) ∧
    ((∃ s, SimpleToolCalling.calculate (Scripted.failEval "boom") "1+1" = Except.ok s) ∧
     (∃ s, CompleteAgent.calculate (Scripted.failEval "boom") "1+1" = Except.ok s) ∧
     (Scripted.failEval "boom" "1+1" = Except.error "boom" →
       SimpleToolCalling.calculate (Scripted.failEval "boom") "1+1" =
         Except.ok ("Error calculating: " ++ "boom")) ∧
     (Scripted.failEval "boom" "1+1" = Except.error "boom" →
       CompleteAgent.validChars "1+1" = true →
       CompleteAgent.calculate (Scripted.failEval "boom") "1+1" =
         Except.ok ("Error: " ++ "boom"))) :=
  ⟨rfl, by decide, C9_calculate_total (Scripted.failEval "boom") "1+1" "boom"⟩

/-- C6: a registered tool whose evaluation fails does not abort the loop: the
failure is caught and becomes the text of the appended tool-result Message,
dispatching a batch of tool calls never raises, and a run can only end in an
exception when the model capability itself raised. -/
theorem C6_tool_failure_contained (pyEval : String → Except String String)
    (tc : ToolCall) (e : String) (model : List Message → Except String AIReply)
    (q : String) (N : Nat) (err : String)
    (h1 : tc.name = "calculate") (h2 : pyEval tc.args = Except.error e) :
    SimpleToolCalling.execToolCall pyEval tc = Except.ok ("Error calculating: " ++ e) ∧
    SimpleToolCalling.execToolCalls pyEval [tc] =
      Except.ok ([Message.tool ("Error calculating: " ++ e) tc.id], 1) ∧
    (∀ tcs, ∃ p, SimpleToolCalling.execToolCalls pyEval tcs = Except.ok p) ∧
    (CompleteAgent.validChars tc.args = true →
      CompleteAgent.calculate pyEval tc.args = Except.ok ("Error: " ++ e)) ∧
    (∀ tcs, ∃ p, CompleteAgent.execToolCalls pyEval tcs = Except.ok p) ∧
    ((SimpleToolCalling.run_agent_loop model pyEval q N).result = Except.error err →
      ∃ t ∈ (SimpleToolCalling.run_agent_loop model pyEval q N).calls,
        model t = Except.error err) ∧
    ((CompleteAgent.run_agent_loop model pyEval q N).result = Except.error err →
      ∃ t ∈ (CompleteAgent.run_agent_loop model pyEval q N).calls,
        model t = Except.error err) := by
  refine ⟨?_, ?_, ?_, ?_, ?_, ?_, ?_⟩
  · simp [SimpleToolCalling.execToolCall, h1, SimpleToolCalling.calculate, h2]
  · rw [SimpleToolCalling.execToolCallsSimple_eq_ok]
    simp [SimpleToolCalling.toolResultText, SimpleToolCalling.invCount,
      SimpleToolCalling.registryNames, h1, h2]
  · exact fun tcs => ⟨_, SimpleToolCalling.execToolCallsSimple_eq_ok pyEval tcs⟩
  · intro hv
    simp [CompleteAgent.calculate, hv, h2]
  · exact fun tcs => ⟨_, CompleteAgent.execToolCallsComplete_eq_ok pyEval tcs⟩
  · exact runAux_error_source model _ _
      (fun tcs => ⟨_, SimpleToolCalling.execToolCallsSimple_eq_ok pyEval tcs⟩) N _ err
  · exact runAux_error_source model _ _
      (fun tcs => ⟨_, CompleteAgent.execToolCallsComplete_eq_ok pyEval tcs⟩) N _ err

/-- Witness for C6 at a concrete failing evaluation. -/
theorem C6_tool_failure_contained_witness :
    (ToolCall.name ⟨"calculate", "(", "a"⟩ = "calculate") ∧
    (Scripted.failEval "syntax error" "(" = Except.error "syntax error") ∧
    (SimpleToolCalling.execToolCall (Scripted.failEval "syntax error") ⟨"calculate", "(", "a"⟩ =
        Except.ok ("Error calculating: " ++ "syntax error") ∧
      SimpleToolCalling.execToolCalls (Scripted.failEval "syntax error") [⟨"calculate", "(", "a"⟩] =
        Except.ok ([Message.tool ("Error calculating: " ++ "syntax error") "a"], 1) ∧
      (∀ tcs, ∃ p, SimpleToolCalling.execToolCalls (Scripted.failEval "syntax error") tcs =
        Except.ok p) ∧
      (CompleteAgent.validChars "(" = true →
        CompleteAgent.calculate (Scripted.failEval "syntax error") "(" =
          Except.ok ("Error: " ++ "syntax error")) ∧
      (∀ tcs, ∃ p, CompleteAgent.execToolCalls (Scripted.failEval "syntax error") tcs =
        Except.ok p) ∧
      ((SimpleToolCalling.run_agent_loop
            (Scripted.twoStep [⟨"calculate", "(", "a"⟩] "done")
            (Scripted.failEval "syntax error") "q" 3).result = Except.error "x" →
        ∃ t ∈ (SimpleToolCalling.run_agent_loop
            (Scripted.twoStep [⟨"calculate", "(", "a"⟩] "done")
            (Scripted.failEval "syntax error") "q" 3).calls,
          Scripted.twoStep [⟨"calculate", "(", "a"⟩] "done" t = Except.error "x") ∧
      ((CompleteAgent.run_agent_loop
            (Scripted.twoStep [⟨"calculate", "(", "a"⟩] "done")
            (Scripted.failEval "syntax error") "q" 3).result = Except.error "x" →
        ∃ t ∈ (CompleteAgent.run_agent_loop
            (Scripted.twoStep [⟨"calculate", "(", "a"⟩] "done")
            (Scripted.failEval "syntax error") "q" 3).calls,
          Scripted.twoStep [⟨"calculate", "(", "a"⟩] "done" t = Except.error "x")) :=
  ⟨rfl, rfl,
    C6_tool_failure_contained (Scripted.failEval "syntax error") ⟨"calculate", "(", "a"⟩
      "syntax error" (Scripted.twoStep [⟨"calculate", "(", "a"⟩] "done") "q" 3 "x"
      rfl rfl⟩

/-- C3: in `01_simple_tool_calling.py`, when a model reply carries `k`
ToolRequests (all naming registered tools), the dispatch appends exactly `k`
tool-result Messages — one per request, in request order, each carrying the
matching request's correlation identifier — to the transcript on which the
next model call is made. -/
theorem C3_tool_results_per_request (model : List Message → Except String AIReply)
    (pyEval : String → Except String String) (n : Nat) (msgs : List Message)
    (resp : AIReply)
    (h1 : model msgs = Except.ok resp)
    (h2 : resp.tool_calls ≠ [])
    (_h3 : ∀ tc ∈ resp.tool_calls, tc.name ∈ SimpleToolCalling.registryNames) :
    ∃ tms : List Message,
      SimpleToolCalling.execToolCalls pyEval resp.tool_calls =
        Except.ok (tms, SimpleToolCalling.invCount resp.tool_calls) ∧
      tms.length = resp.tool_calls.length ∧
      (∀ i (hi : i < tms.length) (hi2 : i < resp.tool_calls.length),
        tms.get ⟨i, hi⟩ =
          Message.tool
            (SimpleToolCalling.toolResultText pyEval (resp.tool_calls.get ⟨i, hi2⟩))
            (resp.tool_calls.get ⟨i, hi2⟩).id) ∧
      runAux model (SimpleToolCalling.execToolCalls pyEval)
          "Max iterations reached without final answer" (n + 1) msgs =
        (let r := runAux model (SimpleToolCalling.execToolCalls pyEval)
            "Max iterations reached without final answer" n
            ((msgs ++ [Message.ai resp.content resp.tool_calls]) ++ tms)
         ⟨r.result, r.messages, msgs :: r.calls,
           SimpleToolCalling.invCount resp.tool_calls + r.toolInvocations⟩) := by
  refine ⟨resp.tool_calls.map
    (fun tc => Message.tool (SimpleToolCalling.toolResultText pyEval tc) tc.id),
    SimpleToolCalling.execToolCallsSimple_eq_ok pyEval resp.tool_calls,
    List.length_map _ _, ?_, ?_⟩
  · intro i hi hi2
    simp [List.get_eq_getElem, List.getElem_map]
  · exact runAux_succ_step model _ _ n msgs resp _ _ h1 h2
      (SimpleToolCalling.execToolCallsSimple_eq_ok pyEval resp.tool_calls)

/-- Witness for C3 with a reply carrying two registered tool calls. -/
theorem C3_tool_results_per_request_witness :
    (Scripted.twoStep [⟨"calculate", "1+1", "a"⟩, ⟨"get_weather", "Tokyo", "b"⟩] "done"
        [Message.human "q"] =
      Except.ok (⟨"", [⟨"calculate", "1+1", "a"⟩, ⟨"get_weather", "Tokyo", "b"⟩]⟩ : AIReply)) ∧
    (AIReply.tool_calls ⟨"", [⟨"calculate", "1+1", "a"⟩, ⟨"get_weather", "Tokyo", "b"⟩]⟩ ≠ []) ∧
    (∀ tc ∈ AIReply.tool_calls ⟨"", [⟨"calculate", "1+1", "a"⟩, ⟨"get_weather", "Tokyo", "b"⟩]⟩,
      tc.name ∈ SimpleToolCalling.registryNames) ∧
    (∃ tms : List Message,
      SimpleToolCalling.execToolCalls (Scripted.okEval "2")
          (AIReply.tool_calls ⟨"", [⟨"calculate", "1+1", "a"⟩, ⟨"get_weather", "Tokyo", "b"⟩]⟩) =
        Except.ok (tms, SimpleToolCalling.invCount
          (AIReply.tool_calls ⟨"", [⟨"calculate", "1+1", "a"⟩, ⟨"get_weather", "Tokyo", "b"⟩]⟩)) ∧
      tms.length = (AIReply.tool_calls
        ⟨"", [⟨"calculate", "1+1", "a"⟩, ⟨"get_weather", "Tokyo", "b"⟩]⟩).length ∧
      (∀ i (hi : i < tms.length)
          (hi2 : i < (AIReply.tool_calls
            ⟨"", [⟨"calculate", "1+1", "a"⟩, ⟨"get_weather", "Tokyo", "b"⟩]⟩).length),
        tms.get ⟨i, hi⟩ =
          Message.tool
            (SimpleToolCalling.toolResultText (Scripted.okEval "2")
              ((AIReply.tool_calls
                ⟨"", [⟨"calculate", "1+1", "a"⟩, ⟨"get_weather", "Tokyo", "b"⟩]⟩).get ⟨i, hi2⟩))
            ((AIReply.tool_calls
              ⟨"", [⟨"calculate", "1+1", "a"⟩, ⟨"get_weather", "Tokyo", "b"⟩]⟩).get ⟨i, hi2⟩).id) ∧
      runAux (Scripted.twoStep [⟨"calculate", "1+1", "a"⟩, ⟨"get_weather", "Tokyo", "b"⟩] "done")
          (SimpleToolCalling.execToolCalls (Scripted.okEval "2"))
          "Max iterations reached without final answer" (2 + 1) [Message.human "q"] =
        (let r := runAux
            (Scripted.twoStep [⟨"calculate", "1+1", "a"⟩, ⟨"get_weather", "Tokyo", "b"⟩] "done")
            (SimpleToolCalling.execToolCalls (Scripted.okEval "2"))
            "Max iterations reached without final answer" 2
            (([Message.human "q"] ++
              [Message.ai ""
                (AIReply.tool_calls ⟨"", [⟨"calculate", "1+1", "a"⟩, ⟨"get_weather", "Tokyo", "b"⟩]⟩)]) ++ tms)
         ⟨r.result, r.messages, [Message.human "q"] :: r.calls,
           SimpleToolCalling.invCount
             (AIReply.tool_calls ⟨"", [⟨"calculate", "1+1", "a"⟩, ⟨"get_weather", "Tokyo", "b"⟩]⟩) +
             r.toolInvocations⟩)) :=
  ⟨rfl, by decide, by decide,
    C3_tool_results_per_request
      (Scripted.twoStep [⟨"calculate", "1+1", "a"⟩, ⟨"get_weather", "Tokyo", "b"⟩] "done")
      (Scripted.okEval "2") 2 [Message.human "q"]
      ⟨"", [⟨"calculate", "1+1", "a"⟩, ⟨"get_weather", "Tokyo", "b"⟩]⟩
      rfl (by decide) (by decide)⟩

/-- C4 counterexample: in `05_complete_agent.py`, a ToolRequest naming the
unregistered tool `"foo"` appends NO tool-result Message at all — the final
transcript of this run holds no tool-result message, and no appended text
carries the name — contradicting the claim that every unregistered request
yields a tool-result Message containing the requested name. -/
theorem C4_counterexample :
    (CompleteAgent.run_agent_loop (Scripted.twoStep [⟨"foo", "x", "id1"⟩] "done")
        (Scripted.okEval "0") "q" 5).messages =
      [Message.human "q", Message.ai "" [⟨"foo", "x", "id1"⟩], Message.ai "done" []] ∧
    resIds (CompleteAgent.run_agent_loop (Scripted.twoStep [⟨"foo", "x", "id1"⟩] "done")
        (Scripted.okEval "0") "q" 5).messages = [] := by
  decide

/-- C4 amended: in `01_simple_tool_calling.py` a ToolRequest naming an
unregistered tool yields a tool-result Message whose text contains the
requested name, raises nothing, and the loop continues; in
`05_complete_agent.py` such a request appends no Message at all, but likewise
raises nothing and the loop continues with the remaining requests. -/
theorem C4_unknown_tool_amended (pyEval : String → Except String String) (tc : ToolCall)
    (h : tc.name ∉ SimpleToolCalling.registryNames) :
    SimpleToolCalling.execToolCall pyEval tc = Except.ok ("Unknown tool: " ++ tc.name) ∧
    (∃ pre post, "Unknown tool: " ++ tc.name = pre ++ tc.name ++ post) ∧
    (∀ rest, SimpleToolCalling.execToolCalls pyEval (tc :: rest) =
      match SimpleToolCalling.execToolCalls pyEval rest with
      | Except.error e => Except.error e
      | Except.ok (ms, k) =>
        Except.ok (Message.tool ("Unknown tool: " ++ tc.name) tc.id :: ms, k)) ∧
    (∀ tcs, ∃ p, SimpleToolCalling.execToolCalls pyEval tcs = Except.ok p) ∧
    (tc.name ≠ "calculate" →
      ∀ rest, CompleteAgent.execToolCalls pyEval (tc :: rest) =
        CompleteAgent.execToolCalls pyEval rest) ∧
    (∀ tcs, ∃ p, CompleteAgent.execToolCalls pyEval tcs = Except.ok p) := by
  simp only [SimpleToolCalling.registryNames, List.mem_cons, List.mem_singleton,
    List.not_mem_nil, or_false, not_or] at h
  obtain ⟨hc, hw, hs⟩ := h
  refine ⟨?_, ⟨"Unknown tool: ", "", by simp⟩, ?_, ?_, ?_, ?_⟩
  · simp [SimpleToolCalling.execToolCall, hc, hw, hs]
  · intro rest
    rw [SimpleToolCalling.execToolCalls]
    rw [show SimpleToolCalling.execToolCall pyEval tc =
        Except.ok ("Unknown tool: " ++ tc.name) by
      simp [SimpleToolCalling.execToolCall, hc, hw, hs]]
    cases SimpleToolCalling.execToolCalls pyEval rest with
    | error e => rfl
    | ok p =>
      obtain ⟨ms, k⟩ := p
      simp [SimpleToolCalling.registryNames, hc, hw, hs]
  · exact fun tcs => ⟨_, SimpleToolCalling.execToolCallsSimple_eq_ok pyEval tcs⟩
  · intro hne rest
    rw [CompleteAgent.execToolCalls, if_neg hne]
  · exact fun tcs => ⟨_, CompleteAgent.execToolCallsComplete_eq_ok pyEval tcs⟩

/-- Witness for the amended C4 at the unregistered name `"foo"`. -/
theorem C4_unknown_tool_amended_witness :
    (ToolCall.name ⟨"foo", "x", "id1"⟩ ∉ SimpleToolCalling.registryNames) ∧
    (SimpleToolCalling.execToolCall (Scripted.okEval "0") ⟨"foo", "x", "id1"⟩ =
      Except.ok ("Unknown tool: " ++ "foo") ∧
    (∃ pre post, "Unknown tool: " ++ ToolCall.name ⟨"foo", "x", "id1"⟩ =
      pre ++ ToolCall.name ⟨"foo", "x", "id1"⟩ ++ post) ∧
    (∀ rest, SimpleToolCalling.execToolCalls (Scripted.okEval "0") (⟨"foo", "x", "id1"⟩ :: rest) =
      match SimpleToolCalling.execToolCalls (Scripted.okEval "0") rest with
      | Except.error e => Except.error e
      | Except.ok (ms, k) =>
        Except.ok (Message.tool ("Unknown tool: " ++ "foo") "id1" :: ms, k)) ∧
    (∀ tcs, ∃ p, SimpleToolCalling.execToolCalls (Scripted.okEval "0") tcs = Except.ok p) ∧
    (ToolCall.name ⟨"foo", "x", "id1"⟩ ≠ "calculate" →
      ∀ rest, CompleteAgent.execToolCalls (Scripted.okEval "0") (⟨"foo", "x", "id1"⟩ :: rest) =
        CompleteAgent.execToolCalls (Scripted.okEval "0") rest) ∧
    (∀ tcs, ∃ p, CompleteAgent.execToolCalls (Scripted.okEval "0") tcs = Except.ok p)) :=
  ⟨by decide,
    C4_unknown_tool_amended (Scripted.okEval "0") ⟨"foo", "x", "id1"⟩ (by decide)⟩

/-- C5 counterexample: in `05_complete_agent.py`, the second model call is
made on a transcript that contains a ToolRequest with correlation identifier
`"id1"` but NO tool-result Message matching it — so the claimed "exactly one
matching tool-result before the next model call" invariant fails there. -/
theorem C5_counterexample :
    (CompleteAgent.run_agent_loop (Scripted.twoStep [⟨"foo", "x", "id1"⟩] "done")
        (Scripted.okEval "0") "q" 5).calls =
      [[Message.human "q"], [Message.human "q", Message.ai "" [⟨"foo", "x", "id1"⟩]]] ∧
    countStr "id1" (reqIds [Message.human "q", Message.ai "" [⟨"foo", "x", "id1"⟩]]) = 1 ∧
    countStr "id1" (resIds [Message.human "q", Message.ai "" [⟨"foo", "x", "id1"⟩]]) = 0 := by
  decide

/-- C5 amended: in `01_simple_tool_calling.py`, at every model call the
transcript carries, for every correlation identifier, exactly as many matching
tool-result Messages as ToolRequests — in particular a ToolRequest whose
identifier occurs exactly once has exactly one matching tool-result appended
before the next model call.  (In `05_complete_agent.py` the invariant holds
only for requests naming `calculate`.) -/
theorem C5_id_invariant_amended (model : List Message → Except String AIReply)
    (pyEval : String → Except String String) (q : String) (N : Nat)
    (t : List Message)
    (ht : t ∈ (SimpleToolCalling.run_agent_loop model pyEval q N).calls) :
    (∀ s, countStr s (reqIds t) = countStr s (resIds t)) ∧
    (∀ s, countStr s (reqIds t) = 1 → countStr s (resIds t) = 1) := by
  have hbal : idBalanced t := by
    refine runAux_idBalanced model (SimpleToolCalling.execToolCalls pyEval) _ ?_ N
      [Message.human q] ?_ t ht
    · intro tcs
      refine ⟨_, _, SimpleToolCalling.execToolCallsSimple_eq_ok pyEval tcs,
        reqIds_toolMsgs _ tcs, ?_⟩
      intro s
      rw [resIds_toolMsgs]
    · intro s
      rfl
  exact ⟨hbal, fun s h1 => (hbal s).symm.trans h1⟩

/-- Witness for the amended C5 at a concrete two-iteration run. -/
theorem C5_id_invariant_amended_witness :
    ([Message.human "q", Message.ai "" [⟨"calculate", "1+1", "a"⟩],
        Message.tool "2" "a"] ∈
      (SimpleToolCalling.run_agent_loop
        (Scripted.twoStep [⟨"calculate", "1+1", "a"⟩] "done")
        (Scripted.okEval "2") "q" 5).calls) ∧
    ((∀ s, countStr s (reqIds [Message.human "q", Message.ai "" [⟨"calculate", "1+1", "a"⟩],
        Message.tool "2" "a"]) =
      countStr s (resIds [Message.human "q", Message.ai "" [⟨"calculate", "1+1", "a"⟩],
        Message.tool "2" "a"])) ∧
     (∀ s, countStr s (reqIds [Message.human "q", Message.ai "" [⟨"calculate", "1+1", "a"⟩],
        Message.tool "2" "a"]) = 1 →
      countStr s (resIds [Message.human "q", Message.ai "" [⟨"calculate", "1+1", "a"⟩],
        Message.tool "2" "a"]) = 1)) :=
  ⟨by decide,
    C5_id_invariant_amended (Scripted.twoStep [⟨"calculate", "1+1", "a"⟩] "done")
      (Scripted.okEval "2") "q" 5 _ (by decide)⟩

namespace AgentWithTools

/-! ## `src/Part1_Examples/langchain_examples/03_agent_with_tools.py`

The keyword router of `simple_agent`.  Python's `str.lower()` and the `in`
substring test are embedded as character-list functions; the two `re.search`
patterns (`(\d+)%` and `\$(\d+)`) are embedded as scanners with the regexes'
leftmost-match semantics.  The two LLM round-trips (`analysis_chain` and
`final_chain`) are an opaque capability `llm`, and the float arithmetic of
`calculate_discount` is an opaque capability `cdFn` (the router treats its
text result as a black box). -/

/-- Python `str.lower()` (character-wise lower-casing). -/
def pyLower (s : String) : String := (s.toList.map Char.toLower).asString

/-- Whether the first list is a prefix of the second. -/
def startsWithL : List Char → List Char → Bool
  | [], _ => true
  | _ :: _, [] => false
  | a :: as, b :: bs => a == b && startsWithL as bs

/-- Whether `needle` occurs as a contiguous sublist. -/
def containsL (needle : List Char) : List Char → Bool
  | [] => needle.isEmpty
  | b :: bs => startsWithL needle (b :: bs) || containsL needle bs

/-- Python's substring test `needle in haystack`. -/
def strContains (haystack needle : String) : Bool :=
  containsL needle.toList haystack.toList

/-- The simulated product database of `search_product`, in insertion order. -/
def products : List (String × String) :=
  [("keyboard", "$99"), ("mouse", "$49"), ("monitor", "$299"), ("laptop", "$1299")]

/-- Python `str.capitalize()`: first character upper-cased, rest lower-cased. -/
def pyCapitalize (s : String) : String :=
  match s.toList with
  | [] => ""
  | c :: rest => (c.toUpper :: rest.map Char.toLower).asString

/-- The `search_product` tool: first product whose key occurs in the
lower-cased name wins; otherwise a not-found text. -/
def search_product (name : String) : String :=
  let name_lower := pyLower name
  match products.find? (fun pr => strContains name_lower pr.1) with
  | some pr => pyCapitalize pr.1 ++ ": " ++ pr.2
  | none => "Product \x27" ++ name ++ "\x27 not found in our database."

/-- The trigger words of the product-search branch. -/
def triggerWords : List String :=
  ["cost", "price", "keyboard", "mouse", "monitor", "laptop"]

/-- The product names the router tries to extract from the query. -/
def productKeywords : List String := ["keyboard", "mouse", "monitor", "laptop"]

/-- The product-search block of `simple_agent` (lines 107–116): if any trigger
word occurs in the lower-cased query, every tool named `search_product` is
invoked once per product keyword occurring in the query; returns the `results`
list and the product names `search_product` was invoked on. -/
def searchPhase (query : String) (tools : List String) :
    List String × List String :=
  if triggerWords.any (fun w => strContains (pyLower query) w) then
    tools.foldl (fun acc t =>
      if t = "search_product" then
        productKeywords.foldl (fun acc2 p =>
          if strContains (pyLower query) p then
            (acc2.1 ++ ["Product search result: " ++ search_product p], acc2.2 ++ [p])
          else acc2) acc
      else acc) ([], [])
  else ([], [])

/-- Scanner for `re.search(r"(\d+)%", query)`: the accumulator carries the
value of the digit run ending at the current position; the first `%` preceded
by a digit yields that run's value (the regex's leftmost match). -/
def goDP : List Char → Option Nat → Option Nat
  | [], _ => none
  | c :: rest, cur =>
    if c.isDigit then goDP rest (some ((cur.getD 0) * 10 + (c.toNat - 48)))
    else if c = '%' then
      match cur with
      | some v => some v
      | none => goDP rest none
    else goDP rest none

/-- `re.search(r"(\d+)%", s)`: `some` of the integer value of group 1 of the
leftmost match, `none` when there is no match. -/
def findDigitPercent (s : String) : Option Nat := goDP s.toList none

/-- `re.search(r"\$(\d+)", s)` on the character list: group 1 (the digit run
after the first `$` followed by at least one digit) of the leftmost match. -/
def findDollarDigits : List Char → Option (List Char)
  | [] => none
  | '$' :: rest =>
    let ds := rest.takeWhile Char.isDigit
    if ds.isEmpty then findDollarDigits rest else some ds
  | _ :: rest => findDollarDigits rest

/-- The discount block of `simple_agent` (lines 118–136): only when
`"discount"` occurs in the lower-cased query, a `(\d+)%` pattern occurs in the
query, the `results` list is non-empty, and `results[0]` carries a `\$(\d+)`
price, is every tool named `calculate_discount` invoked (with that price and
percentage).  Returns the extended results and the invocations made. -/
def discountPhase (cdFn : String → Nat → String) (query : String)
    (tools : List String) (results : List String) :
    List String × List (String × Nat) :=
  if strContains (pyLower query) "discount" then
    match findDigitPercent query, results with
    | some discount_percent, r0 :: _ =>
      match findDollarDigits r0.toList with
      | some ds =>
        let price := "$" ++ ds.asString
        tools.foldl (fun acc t =>
          if t = "calculate_discount" then
            (acc.1 ++ ["Discount calculation: " ++ cdFn price discount_percent],
              acc.2 ++ [(price, discount_percent)])
          else acc) (results, [])
      | none => (results, [])
    | _, _ => (results, [])
  else (results, [])

/-- What `simple_agent` did besides its final text: the tool-results list and
which tool invocations the two keyword branches made. -/
structure AgentTrace where
  results : List String
  searchInvocations : List String
  discountInvocations : List (String × Nat)
deriving DecidableEq, Repr

/-- The analysis prompt (tool descriptions are represented by the tool names,
the only attribute the embedding carries). -/
def analysisPrompt (query : String) (tools : List String) : String :=
  "You are a helpful assistant with access to these tools:\n\n" ++
    String.intercalate "\n" (tools.map (fun t => "- " ++ t)) ++
    "\n\nUser query: " ++ query ++
    "\n\nThink step by step:\n1. What information do I need?\n" ++
    "2. Which tool(s) should I use?\n3. In what order?\n\n" ++
    "Provide your analysis and the tool(s) to use."

/-- The final-answer prompt. -/
def finalPrompt (query toolResults : String) : String :=
  "Based on the following information, answer the user\x27s question:\n\n" ++
    "User query: " ++ query ++ "\n\nTool results:\n" ++ toolResults ++
    "\n\nProvide a clear, concise answer."

/-- `simple_agent(query, tools, llm)`: analysis call, the two keyword
branches, then the final-answer call.  Returns the final answer text and the
instrumented trace. -/
def simple_agent (llm : String → String) (cdFn : String → Nat → String)
    (query : String) (tools : List String) : String × AgentTrace :=
  let _analysis := llm (analysisPrompt query tools)
  let sp := searchPhase query tools
  let dp := discountPhase cdFn query tools sp.1
  let final_answer := llm (finalPrompt query
    (if dp.1.isEmpty then "No tools were needed." else String.intercalate "\n" dp.1))
  (final_answer, ⟨dp.1, sp.2, dp.2⟩)

theorem discountPhase_skip (cdFn : String → Nat → String) (query : String)
    (tools : List String) (results : List String)
    (h : strContains (pyLower query) "discount" = false ∨
      findDigitPercent query = none ∨ results = []) :
    (discountPhase cdFn query tools results).2 = [] := by
  unfold discountPhase
  rcases h with h | h | h
  · simp [h]
  · rw [h]
    split
    · cases results with
      | nil => rfl
      | cons r0 rest => rfl
    · rfl
  · subst h
    split
    · cases findDigitPercent query with
      | none => rfl
      | some dp => rfl
    · rfl

end AgentWithTools

/-- C10: in `simple_agent`'s keyword router, `calculate_discount` is invoked
only if the query contains `"discount"` (case-insensitively), the query
contains a digits-then-`%` pattern, and the product-search branch already
appended a result; if any of these fails, no `calculate_discount` invocation
happens. -/
theorem C10_discount_router (llm : String → String) (cdFn : String → Nat → String)
    (query : String) (tools : List String)
    (h : AgentWithTools.strContains (AgentWithTools.pyLower query) "discount" = false ∨
      AgentWithTools.findDigitPercent query = none ∨
      (AgentWithTools.searchPhase query tools).1 = []) :
    (AgentWithTools.simple_agent llm cdFn query tools).2.discountInvocations = [] :=
  AgentWithTools.discountPhase_skip cdFn query tools
    (AgentWithTools.searchPhase query tools).1 h

/-- Witness for C10: a query without the word `"discount"` never reaches
`calculate_discount`. -/
theorem C10_discount_router_witness :
    (AgentWithTools.strContains
        (AgentWithTools.pyLower "What does a keyboard cost?") "discount" = false ∨
      AgentWithTools.findDigitPercent "What does a keyboard cost?" = none ∨
      (AgentWithTools.searchPhase "What does a keyboard cost?"
        ["search_product", "calculate_discount"]).1 = []) ∧
    (AgentWithTools.simple_agent (fun s => s) (fun p _ => p)
        "What does a keyboard cost?"
        ["search_product", "calculate_discount"]).2.discountInvocations = [] :=
  ⟨Or.inl (by decide),
    C10_discount_router (fun s => s) (fun p _ => p) "What does a keyboard cost?"
      ["search_product", "calculate_discount"] (Or.inl (by decide))⟩
